import Mathlib

/-!
Shallow embedding of the VeloX rideshare dispatch backend: the ride data
model, the ride-request / accept / trip-lifecycle handlers, the Redis
driver-location layer and the matching-round expiry callback, together with
theorems settling the frozen specification claims.  Handlers are modelled as
pure state-transformers over an explicit database value; events are settled
in arrival order, matching the sequential phrasing of the claims.
-/

namespace Velox

/-- Ride lifecycle statuses as stored in the rides table. -/
inductive RideStatus
  | REQUESTED
  | ACCEPTED
  | ARRIVING
  | ARRIVED
  | IN_PROGRESS
  | COMPLETED
  | CANCELLED
  | NO_DRIVERS
deriving DecidableEq, Repr

/-- Service tiers accepted by the request route. -/
inductive ServiceType
  | VELOX
  | VELOX_XL
  | VELOX_BLACK
  | VELOX_GREEN
deriving DecidableEq, Repr

/-- Driver account status used by authentication and candidate filtering. -/
inductive DriverStatus
  | PENDING
  | APPROVED
  | SUSPENDED
deriving DecidableEq, Repr

/-- Rider account status used by authentication. -/
inductive UserStatus
  | ACTIVE
  | INACTIVE
deriving DecidableEq, Repr

/-- Who cancelled a ride, as stored in cancelledBy. -/
inductive CancelParty
  | RIDER
  | DRIVER
deriving DecidableEq, Repr

/-- Promo code kinds. -/
inductive PromoType
  | FIXED
  | PERCENT
deriving DecidableEq, Repr

/-- Earning record payout status. -/
inductive EarningStatus
  | PENDING
  | PAID
deriving DecidableEq, Repr

/-- Authenticated principal kinds: JWTs carry type user, driver or admin. -/
inductive PrincipalType
  | user
  | driver
  | admin
deriving DecidableEq, Repr

/-- An authenticated identity attached to a request by the auth middleware. -/
structure Principal where
  id : Nat
  type : PrincipalType
deriving DecidableEq, Repr

/-- A ride row.  Money amounts are rationals standing for JS decimal values. -/
structure Ride where
  id : Nat
  userId : Nat
  driverId : Option Nat := none
  status : RideStatus
  serviceType : ServiceType
  baseFare : ℚ := 0
  distanceFare : ℚ := 0
  timeFare : ℚ := 0
  promoDiscount : ℚ := 0
  totalFare : ℚ := 0
  platformFee : ℚ := 0
  driverEarnings : ℚ := 0
  tip : ℚ := 0
  acceptedAt : Option Nat := none
  arrivedAt : Option Nat := none
  startedAt : Option Nat := none
  completedAt : Option Nat := none
  cancelledAt : Option Nat := none
  cancelledBy : Option CancelParty := none
deriving DecidableEq, Repr

/-- A driver row, restricted to the fields the embedded handlers read or write. -/
structure Driver where
  id : Nat
  status : DriverStatus
  isOnline : Bool := false
  serviceTypes : List ServiceType := []
  totalRides : Nat := 0
  totalEarnings : ℚ := 0
  currentLat : ℚ := 0
  currentLng : ℚ := 0
  lastLocationUpdate : Option Nat := none
deriving DecidableEq, Repr

/-- A rider account row. -/
structure UserAcct where
  id : Nat
  status : UserStatus
deriving DecidableEq, Repr

/-- An earning ledger row created at trip completion. -/
structure Earning where
  driverId : Nat
  rideId : Nat
  grossAmount : ℚ
  platformFee : ℚ
  netAmount : ℚ
  tip : ℚ
  status : EarningStatus
deriving DecidableEq, Repr

/-- A promo code row. -/
structure PromoCode where
  isActive : Bool
  validUntil : Option Nat := none
  usageLimit : Option Nat := none
  usageCount : Nat := 0
  perUserLimit : Nat := 1
  minRideFare : Option ℚ := none
  type : PromoType
  value : ℚ
  maxDiscount : Option ℚ := none
deriving DecidableEq, Repr

/-- The durable store: rides, drivers, riders and the earnings ledger. -/
structure Db where
  rides : List Ride := []
  drivers : List Driver := []
  users : List UserAcct := []
  earnings : List Earning := []
deriving DecidableEq, Repr

/-- Payload of the driver location key in Redis. -/
structure DriverLoc where
  lat : ℚ
  lng : ℚ
  updatedAt : Nat
deriving DecidableEq, Repr

/-- The Redis state the location layer touches: per-driver location keys with
an absolute expiry instant, and the drivers online geo sorted set whose
members carry a position and never expire on their own. -/
structure RedisState where
  locKeys : List (Nat × DriverLoc × Nat) := []
  geoIndex : List (Nat × ℚ × ℚ) := []
deriving DecidableEq, Repr

/-- Per-tier pricing constants. -/
structure PricingTier where
  baseFare : ℚ
  perMile : ℚ
  perMinute : ℚ
  minFare : ℚ
  bookingFee : ℚ
deriving DecidableEq, Repr

/-- The PRICING table from the pricing utilities. -/
def PRICING : ServiceType → PricingTier
  | .VELOX => ⟨3, 7/4, 1/4, 7, 5/2⟩
  | .VELOX_XL => ⟨5, 5/2, 7/20, 10, 5/2⟩
  | .VELOX_BLACK => ⟨8, 7/2, 1/2, 15, 3⟩
  | .VELOX_GREEN => ⟨5/2, 3/2, 1/5, 6, 2⟩

/-- JS Math.round(x * 100) / 100: round to two decimals, halves up. -/
def round2 (x : ℚ) : ℚ := (round (x * 100) : ℤ) / 100

/-- Result of calculateFare. -/
structure FareDetails where
  baseFare : ℚ
  distanceFare : ℚ
  timeFare : ℚ
  bookingFee : ℚ
  surgeMultiplier : ℚ
  totalFare : ℚ
deriving DecidableEq, Repr

/-- calculateFare from the pricing utilities: base + per-mile + per-minute
components, surge on the subtotal, booking fee added after surge, a minimum
fare floor, every published component rounded to two decimals. -/
def calculateFare (distanceMiles durationMinutes : ℚ) (serviceType : ServiceType)
    (surgeMultiplier : ℚ) : FareDetails :=
  let pricing := PRICING serviceType
  let baseFare := pricing.baseFare
  let distanceFare := distanceMiles * pricing.perMile
  let timeFare := durationMinutes * pricing.perMinute
  let subtotal := (baseFare + distanceFare + timeFare) * surgeMultiplier
  let bookingFee := pricing.bookingFee
  let total0 := subtotal + bookingFee
  let total := if total0 < pricing.minFare then pricing.minFare else total0
  { baseFare := round2 baseFare
    distanceFare := round2 distanceFare
    timeFare := round2 timeFare
    bookingFee := round2 bookingFee
    surgeMultiplier := surgeMultiplier
    totalFare := round2 total }

/-- validatePromoCode from the rides routes, with the database lookups for the
promo row and the caller's prior usage count supplied as arguments.  Returns
the discount when the code is valid, none otherwise. -/
def validatePromoCode (promo? : Option PromoCode) (userUsages : Nat)
    (fareAmount : ℚ) (now : Nat) : Option ℚ :=
  match promo? with
  | none => none
  | some promo =>
    if !promo.isActive then none
    else if (match promo.validUntil with | some t => decide (t < now) | none => false) then none
    else if (match promo.usageLimit with | some l => decide (l ≤ promo.usageCount) | none => false) then none
    else if promo.perUserLimit ≤ userUsages then none
    else if (match promo.minRideFare with | some m => decide (fareAmount < m) | none => false) then none
    else some (match promo.type with
      | .FIXED => min promo.value fareAmount
      | .PERCENT =>
        let d := fareAmount * (promo.value / 100)
        match promo.maxDiscount with
        | some m => min d m
        | none => d)

/-- prisma.ride.findUnique on id. -/
def findRide (db : Db) (rideId : Nat) : Option Ride :=
  db.rides.find? (fun r => r.id == rideId)

/-- prisma.ride.update on id: rewrite the matching row in place. -/
def updateRide (db : Db) (rideId : Nat) (f : Ride → Ride) : Db :=
  { db with rides := db.rides.map (fun r => if r.id == rideId then f r else r) }

/-- prisma.driver.findUnique on id. -/
def findDriver (db : Db) (driverId : Nat) : Option Driver :=
  db.drivers.find? (fun d => d.id == driverId)

/-- prisma.driver.update on id: rewrite the matching row in place. -/
def updateDriver (db : Db) (driverId : Nat) (f : Driver → Driver) : Db :=
  { db with drivers := db.drivers.map (fun d => if d.id == driverId then f d else d) }

/-- The status list of the active-ride check in POST /request. -/
def isActiveStatus (s : RideStatus) : Bool :=
  s == .REQUESTED || s == .ACCEPTED || s == .ARRIVING || s == .ARRIVED || s == .IN_PROGRESS

/-- prisma.ride.findFirst for userId with status in the active list. -/
def hasActiveRide (db : Db) (userId : Nat) : Bool :=
  db.rides.any (fun r => r.userId == userId && isActiveStatus r.status)

/-- Number of active rides a rider has in the store. -/
def countActive (db : Db) (userId : Nat) : Nat :=
  (db.rides.filter (fun r => r.userId == userId && isActiveStatus r.status)).length

/-- The ride row POST /request creates: fare computed once from distance,
duration derived as ceil of distance times 2.5 plus 5, surge fixed at 1,
promo discount subtracted from the total, a 20 percent platform fee and the
driver earnings as the remainder. -/
def buildRide (userId newId : Nat) (distance : ℚ) (serviceType : ServiceType)
    (promo? : Option PromoCode) (userUsages now : Nat) : Ride :=
  let duration : ℚ := (⌈distance * (5/2) + 5⌉ : ℤ)
  let fareDetails := calculateFare distance duration serviceType 1
  let promoDiscount := (validatePromoCode promo? userUsages fareDetails.totalFare now).getD 0
  let totalFare := fareDetails.totalFare - promoDiscount
  let platformFee := totalFare * (20 / 100)
  let driverEarnings := totalFare - platformFee
  { id := newId
    userId := userId
    driverId := none
    status := .REQUESTED
    serviceType := serviceType
    baseFare := fareDetails.baseFare
    distanceFare := fareDetails.distanceFare
    timeFare := fareDetails.timeFare
    promoDiscount := promoDiscount
    totalFare := totalFare
    platformFee := platformFee
    driverEarnings := driverEarnings
    tip := 0 }

/-- Outcome of POST /request. -/
inductive RequestResult
  | activeRideExists
  | created (rideId : Nat)
deriving DecidableEq, Repr

/-- POST /request: reject when the rider already has an active ride,
otherwise create the ride with status REQUESTED. -/
def requestRide (db : Db) (userId : Nat) (distance : ℚ) (serviceType : ServiceType)
    (promo? : Option PromoCode) (userUsages now newId : Nat) : Db × RequestResult :=
  if hasActiveRide db userId then
    (db, .activeRideExists)
  else
    let ride := buildRide userId newId distance serviceType promo? userUsages now
    ({ db with rides := db.rides ++ [ride] }, .created newId)

/-- Reply emitted to a driver by the accept handler. -/
inductive AcceptReply
  | confirmed (rideId : Nat)
  | rideNoLongerAvailable
  | failedToAccept
deriving DecidableEq, Repr

/-- The driver accept ride socket handler: look the ride up, reject unless it
is still REQUESTED, then attach the driver and set status ACCEPTED.  The
driver profile is fetched for the confirmation payload; if that row were
missing the handler would throw after the ride update and the catch block
would report a generic failure, with the update already applied. -/
def acceptRide (db : Db) (driverId rideId now : Nat) : Db × AcceptReply :=
  match findRide db rideId with
  | none => (db, .rideNoLongerAvailable)
  | some ride =>
    if ride.status ≠ .REQUESTED then
      (db, .rideNoLongerAvailable)
    else
      let db1 := updateRide db rideId (fun r =>
        { r with driverId := some driverId, status := .ACCEPTED, acceptedAt := some now })
      match findDriver db driverId with
      | none => (db1, .failedToAccept)
      | some _ => (db1, .confirmed rideId)

/-- A list of accept attempts for one ride settled in arrival order. -/
def processAccepts (db : Db) (rideId now : Nat) : List Nat → Db × List AcceptReply
  | [] => (db, [])
  | d :: ds =>
    let step := acceptRide db d rideId now
    let rest := processAccepts step.1 rideId now ds
    (rest.1, step.2 :: rest.2)

/-- The driver arrived socket handler: an unconditional update to ARRIVED
with no status precondition.  Fails only when the ride id is unknown. -/
def driverArrived (db : Db) (rideId now : Nat) : Db × Bool :=
  match findRide db rideId with
  | none => (db, false)
  | some _ =>
    (updateRide db rideId (fun r => { r with status := .ARRIVED, arrivedAt := some now }), true)

/-- The driver start trip socket handler: an unconditional update to
IN_PROGRESS with no status precondition. -/
def startTrip (db : Db) (rideId now : Nat) : Db × Bool :=
  match findRide db rideId with
  | none => (db, false)
  | some _ =>
    (updateRide db rideId (fun r => { r with status := .IN_PROGRESS, startedAt := some now }), true)

/-- Reply emitted to a driver by the complete trip handler. -/
inductive CompleteReply
  | confirmed (rideId : Nat) (earnings : ℚ)
  | rideNotFound
deriving DecidableEq, Repr

/-- The driver complete trip socket handler: an unconditional update to
COMPLETED, then an earning row is created from the ride fare fields and the
driver aggregate counters are incremented.  No status precondition guards
any of these steps. -/
def completeTrip (db : Db) (driverId rideId now : Nat) : Db × CompleteReply :=
  match findRide db rideId with
  | none => (db, .rideNotFound)
  | some ride =>
    let db1 := updateRide db rideId (fun r =>
      { r with status := .COMPLETED, completedAt := some now })
    let e : Earning :=
      { driverId := driverId
        rideId := rideId
        grossAmount := ride.totalFare
        platformFee := ride.platformFee
        netAmount := ride.driverEarnings
        tip := ride.tip
        status := .PENDING }
    let db2 := { db1 with earnings := db1.earnings ++ [e] }
    let db3 := updateDriver db2 driverId (fun d =>
      { d with totalRides := d.totalRides + 1, totalEarnings := d.totalEarnings + ride.driverEarnings })
    (db3, .confirmed rideId ride.driverEarnings)

/-- Outcome of POST cancel. -/
inductive CancelResult
  | rideNotFound
  | accessDenied
  | cannotCancel
  | cancelled (fee : ℚ)
deriving DecidableEq, Repr

/-- The cancel route: ownership checks for rider and driver principals, a
guard rejecting rides already COMPLETED or CANCELLED, a flat five dollar fee
when a driver is assigned and a rider cancels, then the CANCELLED update. -/
def cancelRide (db : Db) (who : Principal) (rideId now : Nat) : Db × CancelResult :=
  match findRide db rideId with
  | none => (db, .rideNotFound)
  | some ride =>
    if who.type == .user && ride.userId != who.id then
      (db, .accessDenied)
    else if who.type == .driver && ride.driverId != some who.id then
      (db, .accessDenied)
    else if ride.status == .COMPLETED || ride.status == .CANCELLED then
      (db, .cannotCancel)
    else
      let fee : ℚ := if ride.driverId.isSome && who.type == .user then 5 else 0
      let db1 := updateRide db rideId (fun r =>
        { r with status := .CANCELLED
                 cancelledAt := some now
                 cancelledBy := some (if who.type == .user then .RIDER else .DRIVER) })
      (db1, .cancelled fee)

/-- Outcome of POST tip. -/
inductive TipResult
  | rideNotFound
  | notCompleted
  | tipAdded
deriving DecidableEq, Repr

/-- The tip route: only the ride owner may tip, only a COMPLETED ride; the
tip amount is written to the ride and mirrored onto its earning rows. -/
def addTip (db : Db) (userId rideId : Nat) (amount : ℚ) : Db × TipResult :=
  match findRide db rideId with
  | none => (db, .rideNotFound)
  | some ride =>
    if ride.userId != userId then (db, .rideNotFound)
    else if ride.status ≠ .COMPLETED then (db, .notCompleted)
    else
      let db1 := updateRide db rideId (fun r => { r with tip := amount })
      let db2 :=
        if ride.driverId.isSome then
          { db1 with earnings := db1.earnings.map (fun e =>
              if e.rideId == rideId then { e with tip := amount } else e) }
        else db1
      (db2, .tipAdded)

/-- The matching-round expiry callback: re-read the ride, and only when it is
still REQUESTED set it to NO_DRIVERS and notify the rider.  The boolean
records whether the transition was applied. -/
def matchingTimeoutFire (db : Db) (rideId : Nat) : Db × Bool :=
  match findRide db rideId with
  | none => (db, false)
  | some ride =>
    if ride.status == .REQUESTED then
      (updateRide db rideId (fun r => { r with status := .NO_DRIVERS }), true)
    else
      (db, false)

/-- Outcome of GET ride by id. -/
inductive GetRideResult
  | rideNotFound
  | accessDenied
  | ok (ride : Ride)
deriving DecidableEq, Repr

/-- The GET ride route: a rider principal is denied unless it is the ride
rider, a driver principal unless it is the assigned driver; any principal of
another type falls through both guards. -/
def getRide (db : Db) (who : Principal) (rideId : Nat) : GetRideResult :=
  match findRide db rideId with
  | none => .rideNotFound
  | some ride =>
    if who.type == .user && ride.userId != who.id then .accessDenied
    else if who.type == .driver && ride.driverId != some who.id then .accessDenied
    else .ok ride

/-- The token-authentication middleware: a user principal must exist with an
ACTIVE account, a driver principal must exist and not be SUSPENDED, and a
token of any other type passes with no further check. -/
def authPasses (db : Db) (who : Principal) : Bool :=
  match who.type with
  | .user =>
    match db.users.find? (fun u => u.id == who.id) with
    | none => false
    | some u => u.status == .ACTIVE
  | .driver =>
    match findDriver db who.id with
    | none => false
    | some d => d.status != .SUSPENDED
  | .admin => true

/-- Redis SETEX on a driver location key: upsert the value together with its
absolute expiry instant. -/
def setexLoc (l : List (Nat × DriverLoc × Nat)) (k : Nat) (v : DriverLoc)
    (expiresAt : Nat) : List (Nat × DriverLoc × Nat) :=
  (k, v, expiresAt) :: l.filter (fun p => p.1 != k)

/-- The latitude bound of the Redis geo encoding, 85.05112878 degrees. -/
def GEO_LAT_MAX : ℚ := 8505112878 / 100000000

/-- The coordinate range Redis GEOADD accepts: longitude within [-180, 180]
and latitude within [-GEO_LAT_MAX, GEO_LAT_MAX]. -/
def geoInRange (lng lat : ℚ) : Bool :=
  -180 ≤ lng && lng ≤ 180 && -GEO_LAT_MAX ≤ lat && lat ≤ GEO_LAT_MAX

/-- Redis GEOADD on the online set: upsert the member position, or reject
the pair with the invalid longitude,latitude error when it lies outside the
geo coordinate range.  Members of the sorted set carry no time-to-live. -/
def geoadd (g : List (Nat × ℚ × ℚ)) (k : Nat) (lng lat : ℚ) :
    Option (List (Nat × ℚ × ℚ)) :=
  if geoInRange lng lat then some ((k, lng, lat) :: g.filter (fun p => p.1 != k))
  else none

/-- updateDriverLocation from the Redis layer: write the location key with a
300 second expiry, then add the driver to the geo index.  The SETEX is
awaited first, so when GEOADD rejects the pair the location key already
holds it; the boolean records whether the GEOADD succeeded, a rejection
propagating to the caller as a thrown error. -/
def updateDriverLocation (rs : RedisState) (driverId : Nat) (lat lng : ℚ)
    (now : Nat) : RedisState × Bool :=
  let keys := setexLoc rs.locKeys driverId ⟨lat, lng, now⟩ (now + 300)
  match geoadd rs.geoIndex driverId lng lat with
  | some g => ({ locKeys := keys, geoIndex := g }, true)
  | none => ({ locKeys := keys, geoIndex := rs.geoIndex }, false)

/-- getDriverLocation: a GET on the location key, which yields nothing once
the key expiry has passed. -/
def getDriverLocation (rs : RedisState) (driverId now : Nat) : Option DriverLoc :=
  match rs.locKeys.find? (fun p => p.1 == driverId) with
  | none => none
  | some (_, v, expiresAt) => if now < expiresAt then some v else none

/-- removeDriverFromPool: delete the location key and the geo member. -/
def removeDriverFromPool (rs : RedisState) (driverId : Nat) : RedisState :=
  { locKeys := rs.locKeys.filter (fun p => p.1 != driverId)
    geoIndex := rs.geoIndex.filter (fun p => p.1 != driverId) }

/-- Insert one candidate into a distance-ascending list. -/
def insertByDist (x : Nat × ℚ) : List (Nat × ℚ) → List (Nat × ℚ)
  | [] => [x]
  | y :: ys => if x.2 ≤ y.2 then x :: y :: ys else y :: insertByDist x ys

/-- Sort candidates by ascending distance, as GEORADIUS ASC reports them. -/
def sortByDist (l : List (Nat × ℚ)) : List (Nat × ℚ) :=
  l.foldr insertByDist []

/-- findNearbyDrivers: a GEORADIUS over the geo index returning members
within the radius with their distances, ascending, truncated to the count
limit.  The distance computation lives in the Redis server, so it is passed
as an oracle taking the query latitude and longitude and the member latitude
and longitude.  Nothing here consults the location keys or any freshness
timestamp. -/
def findNearbyDrivers (dist : ℚ → ℚ → ℚ → ℚ → ℚ) (rs : RedisState)
    (lat lng radiusMiles : ℚ) (limit : Nat) : List (Nat × ℚ) :=
  let within := rs.geoIndex.filterMap (fun p =>
    let d := dist lat lng p.2.2 p.2.1
    if d ≤ radiusMiles then some (p.1, d) else none)
  (sortByDist within).take limit

/-- Outcome of the driver location HTTP route. -/
inductive LocResult
  | ok
  | driverNotFound
  | redisGeoError
deriving DecidableEq, Repr

/-- The POST location route.  It declares float validators for lat and lng
but never reads the validation result, and the route itself performs no
coordinate-range check, so the handler runs for every numeric pair: it
writes the coordinates to the driver row, then calls the Redis location
layer.  When Redis GEOADD rejects the pair, asyncHandler forwards the
thrown error as a 500 response — after the driver row and the location key
were already written.  The remaining failing case is an unknown driver id,
which authentication rules out. -/
def postLocation (db : Db) (rs : RedisState) (driverId : Nat) (lat lng : ℚ)
    (now : Nat) : (Db × RedisState) × LocResult :=
  match findDriver db driverId with
  | none => ((db, rs), .driverNotFound)
  | some _ =>
    let db1 := updateDriver db driverId (fun d =>
      { d with currentLat := lat, currentLng := lng, lastLocationUpdate := some now })
    let step := updateDriverLocation rs driverId lat lng now
    ((db1, step.1), if step.2 then .ok else .redisGeoError)

/-- The post-creation operations of the ride lifecycle surface. -/
inductive RideOp
  | accept (driverId rideId now : Nat)
  | arrived (rideId now : Nat)
  | start (rideId now : Nat)
  | complete (driverId rideId now : Nat)
  | cancel (who : Principal) (rideId now : Nat)
  | timeout (rideId : Nat)
  | tip (userId rideId : Nat) (amount : ℚ)

/-- The store after one lifecycle operation. -/
def applyOp (db : Db) : RideOp → Db
  | .accept d r n => (acceptRide db d r n).1
  | .arrived r n => (driverArrived db r n).1
  | .start r n => (startTrip db r n).1
  | .complete d r n => (completeTrip db d r n).1
  | .cancel w r n => (cancelRide db w r n).1
  | .timeout r => (matchingTimeoutFire db r).1
  | .tip u r a => (addTip db u r a).1

/-- All fare fields of the two rides agree, the tip aside. -/
def fareUnchanged (a b : Ride) : Prop :=
  b.baseFare = a.baseFare ∧ b.distanceFare = a.distanceFare ∧ b.timeFare = a.timeFare ∧
  b.promoDiscount = a.promoDiscount ∧ b.totalFare = a.totalFare ∧
  b.platformFee = a.platformFee ∧ b.driverEarnings = a.driverEarnings

/-- The creation-time fare of a ride before the promo discount. -/
def preFare (distance : ℚ) (st : ServiceType) : ℚ :=
  (calculateFare distance ((⌈distance * (5/2) + 5⌉ : ℤ) : ℚ) st 1).totalFare

/-- The promo discount the request route applies at creation. -/
def promoDiscountOf (distance : ℚ) (st : ServiceType) (promo? : Option PromoCode)
    (userUsages now : Nat) : ℚ :=
  (validatePromoCode promo? userUsages (preFare distance st) now).getD 0

/-- The principal is a party of the ride: its rider, or its assigned driver. -/
def isParty (who : Principal) (ride : Ride) : Prop :=
  (who.type = .user ∧ ride.userId = who.id) ∨
  (who.type = .driver ∧ ride.driverId = some who.id)

/-- Fixture: an in-progress ride with an assigned driver. -/
def rideA : Ride :=
  { id := 1, userId := 10, driverId := some 20, status := .IN_PROGRESS,
    serviceType := .VELOX, totalFare := 10, platformFee := 2, driverEarnings := 8,
    startedAt := some 30 }

/-- Fixture: an approved driver with zeroed aggregates. -/
def driverA : Driver := { id := 20, status := .APPROVED, isOnline := true }

/-- Fixture: store for the double-completion scenario. -/
def dbC1 : Db := { rides := [rideA], drivers := [driverA], users := [⟨10, .ACTIVE⟩] }

/-- Fixture: a ride already cancelled by its rider. -/
def rideC : Ride :=
  { id := 1, userId := 10, driverId := some 20, status := .CANCELLED,
    serviceType := .VELOX, cancelledAt := some 50, cancelledBy := some .RIDER }

/-- Fixture: a ride that ended with no drivers found. -/
def rideN : Ride :=
  { id := 2, userId := 11, driverId := none, status := .NO_DRIVERS,
    serviceType := .VELOX }

/-- Fixture: store for the terminal-state scenarios. -/
def dbC3 : Db :=
  { rides := [rideC, rideN], drivers := [driverA],
    users := [⟨10, .ACTIVE⟩, ⟨11, .ACTIVE⟩] }

/-- Fixture: Redis state after one location ping at second 1000. -/
def rsC4 : RedisState := (updateDriverLocation {} 7 40 (-74) 1000).1

/-- Fixture: a requested ride awaiting accepts. -/
def rideB : Ride :=
  { id := 1, userId := 10, driverId := none, status := .REQUESTED,
    serviceType := .VELOX, totalFare := 10, platformFee := 2, driverEarnings := 8 }

/-- Fixture: store with a requested ride and two candidate drivers. -/
def dbC2 : Db :=
  { rides := [rideB],
    drivers := [driverA, { id := 21, status := .APPROVED, isOnline := false }],
    users := [⟨10, .ACTIVE⟩] }

/-- Fixture: a 200 percent promo code with no discount cap. -/
def promoX : PromoCode := { isActive := true, type := .PERCENT, value := 200 }

/-- Fixture: a driver row for the location-route scenario. -/
def driverB : Driver := { id := 7, status := .APPROVED }

/-- Fixture: store for the location-route scenario. -/
def dbC8 : Db := { drivers := [driverB] }

/-- Fixture: an accepted ride between rider 10 and driver 20. -/
def rideD : Ride :=
  { id := 1, userId := 10, driverId := some 20, status := .ACCEPTED,
    serviceType := .VELOX, acceptedAt := some 5 }

/-- Fixture: store for the access-control scenarios. -/
def dbC10 : Db := { rides := [rideD], drivers := [driverA], users := [⟨10, .ACTIVE⟩] }

theorem find?_map_of_key_eq {α : Type} (key : α → Nat) (k : Nat) (g : α → α)
    (hg : ∀ a, key (g a) = key a) (l : List α) :
    (l.map g).find? (fun a => key a == k) = (l.find? (fun a => key a == k)).map g := by
  induction l with
  | nil => rfl
  | cons a l ih =>
    simp only [List.map_cons, List.find?, hg a]
    cases h : (key a == k) <;> simp [ih]

theorem findRide_map (db : Db) (g : Ride → Ride) (hg : ∀ r, (g r).id = r.id)
    (rideId : Nat) :
    findRide { db with rides := db.rides.map g } rideId
      = (findRide db rideId).map g := by
  unfold findRide
  exact find?_map_of_key_eq (fun r => r.id) rideId g hg db.rides

theorem findRide_updateRide (db : Db) (rideId : Nat) (f : Ride → Ride)
    (hf : ∀ r, (f r).id = r.id) :
    findRide (updateRide db rideId f) rideId = (findRide db rideId).map f := by
  have hg : ∀ r : Ride, (if r.id == rideId then f r else r).id = r.id := by
    intro r
    by_cases h : r.id = rideId <;> simp [h, hf]
  rw [updateRide, findRide_map db _ hg rideId]
  cases hfind : findRide db rideId with
  | none => rfl
  | some r =>
    have hr : r.id = rideId := by
      have := List.find?_some hfind
      simpa using this
    simp [hr]

/-- Claim C1 states that a second COMPLETED transition is rejected as a
conflict and exactly one Earning is created.  Evaluating the complete-trip
handler at the failing input shows the opposite: the second attempt also
succeeds, a second Earning row for the same ride is created, and the driver
aggregates are incremented twice, because the handler applies the COMPLETED
update with no status precondition. -/
theorem c1_double_complete_not_guarded :
    (completeTrip dbC1 20 1 100).2 = .confirmed 1 8 ∧
    findRide (completeTrip dbC1 20 1 100).1 1
      = some { rideA with status := .COMPLETED, completedAt := some 100 } ∧
    (completeTrip (completeTrip dbC1 20 1 100).1 20 1 200).2 = .confirmed 1 8 ∧
    ((completeTrip (completeTrip dbC1 20 1 100).1 20 1 200).1.earnings.filter
        (fun e => e.rideId == 1)).length = 2 ∧
    findDriver (completeTrip (completeTrip dbC1 20 1 100).1 20 1 200).1 20
      = some { driverA with totalRides := 2, totalEarnings := 16 } := by
  norm_num [completeTrip, dbC1, rideA, driverA, findRide, findDriver,
    updateRide, updateDriver, List.find?, List.filter]

/-- Claim C3 states that a ride in a terminal status rejects every further
transition attempt as a conflict and is left unchanged.  Evaluating the
handlers at the failing inputs shows the opposite: the arrived event moves a
CANCELLED ride to ARRIVED, the start event moves it to IN_PROGRESS, and the
cancel route accepts a cancellation of a NO_DRIVERS ride, because the socket
handlers carry no status guard and the cancel guard omits NO_DRIVERS. -/
theorem c3_terminal_states_not_guarded :
    (driverArrived dbC3 1 60).2 = true ∧
    findRide (driverArrived dbC3 1 60).1 1
      = some { rideC with status := .ARRIVED, arrivedAt := some 60 } ∧
    (startTrip dbC3 1 60).2 = true ∧
    findRide (startTrip dbC3 1 60).1 1
      = some { rideC with status := .IN_PROGRESS, startedAt := some 60 } ∧
    (cancelRide dbC3 ⟨11, .user⟩ 2 70).2 = .cancelled 0 ∧
    findRide (cancelRide dbC3 ⟨11, .user⟩ 2 70).1 2
      = some { rideN with status := .CANCELLED, cancelledAt := some 70, cancelledBy := some .RIDER } := by
  decide

/-- Claim C4 states that a driver whose last position update is older than
the five-minute freshness window never appears in proximity query results.
Evaluating the Redis layer at the failing input shows the opposite: 301
seconds after the only location ping the location key has expired, yet the
driver is still a member of the geo index and is returned by the proximity
query, because findNearbyDrivers never consults the freshness key and geo
members have no expiry. -/
theorem c4_stale_driver_still_returned (dist : ℚ → ℚ → ℚ → ℚ → ℚ)
    (hd : dist 40 (-74) 40 (-74) = 0) :
    getDriverLocation rsC4 7 1301 = none ∧
    (findNearbyDrivers dist rsC4 40 (-74) 1 20).map (fun p => p.1) = [7] := by
  have hrs : rsC4 = { locKeys := [(7, ⟨40, -74, 1000⟩, 1300)], geoIndex := [(7, -74, 40)] } := by
    norm_num [rsC4, updateDriverLocation, geoadd, geoInRange, GEO_LAT_MAX, setexLoc]
  constructor
  · rw [hrs]
    decide
  · rw [hrs]
    simp [findNearbyDrivers, hd, sortByDist, insertByDist]

/-- Witness for C4 at a concrete distance oracle that reports distance zero
from a point to itself. -/
theorem c4_witness :
    getDriverLocation rsC4 7 1301 = none ∧
    (findNearbyDrivers (fun _ _ _ _ => 0) rsC4 40 (-74) 1 20).map (fun p => p.1)
      = [7] :=
  c4_stale_driver_still_returned (fun _ _ _ _ => 0) rfl

/-- Claim C9: the accept-ride handler checks only that the ride exists and is
REQUESTED; any authenticated driver — the driver row drv is arbitrary, so in
particular one that is offline, does not serve the ride's class, or was never
notified — obtains the ride. -/
theorem c9_accept_checks_only_status (db : Db) (driverId rideId now : Nat)
    (r : Ride) (drv : Driver) (hr : findRide db rideId = some r)
    (hreq : r.status = .REQUESTED) (hdrv : findDriver db driverId = some drv) :
    acceptRide db driverId rideId now
      = (updateRide db rideId (fun x =>
          { x with driverId := some driverId, status := .ACCEPTED,
                   acceptedAt := some now }),
         .confirmed rideId) := by
  simp [acceptRide, hr, hreq, hdrv]

/-- Witness for C9: driver 21 is offline, registered for no service class and
was never notified, yet its accept of the requested ride succeeds. -/
theorem c9_witness :
    acceptRide dbC2 21 1 5
      = (updateRide dbC2 1 (fun x =>
          { x with driverId := some 21, status := .ACCEPTED, acceptedAt := some 5 }),
         .confirmed 1) :=
  c9_accept_checks_only_status dbC2 21 1 5 rideB
    { id := 21, status := .APPROVED, isOnline := false } rfl rfl rfl

theorem processAccepts_stale (rideId now : Nat) (ds : List Nat) :
    ∀ db r, findRide db rideId = some r → r.status ≠ .REQUESTED →
      processAccepts db rideId now ds
        = (db, ds.map (fun _ => AcceptReply.rideNoLongerAvailable)) := by
  induction ds with
  | nil =>
    intro db r h hs
    simp [processAccepts]
  | cons d ds ih =>
    intro db r h hs
    have hstep : acceptRide db d rideId now = (db, .rideNoLongerAvailable) := by
      simp [acceptRide, h, hs]
    simp [processAccepts, hstep, ih db r h hs]

/-- Claim C2: accept attempts for one ride settled in arrival order — the
first attempt wins, transitioning REQUESTED to ACCEPTED with the winner's
driver id attached; every later attempt receives the ride-no-longer-available
rejection and the stored ride keeps the winner's status and driver id. -/
theorem c2_first_accept_wins (db : Db) (rideId now w : Nat) (ls : List Nat)
    (r : Ride) (hr : findRide db rideId = some r) (hreq : r.status = .REQUESTED)
    (hw : (findDriver db w).isSome = true) (_hnd : (w :: ls).Nodup) :
    (processAccepts db rideId now (w :: ls)).2
        = .confirmed rideId :: ls.map (fun _ => AcceptReply.rideNoLongerAvailable) ∧
    findRide (processAccepts db rideId now (w :: ls)).1 rideId
      = some { r with driverId := some w, status := .ACCEPTED, acceptedAt := some now } := by
  obtain ⟨drv, hdrv⟩ := Option.isSome_iff_exists.mp hw
  have hstep : acceptRide db w rideId now
      = (updateRide db rideId (fun x =>
          { x with driverId := some w, status := .ACCEPTED, acceptedAt := some now }),
         .confirmed rideId) := by
    simp [acceptRide, hr, hreq, hdrv]
  have hfound : findRide (updateRide db rideId (fun x =>
      { x with driverId := some w, status := .ACCEPTED, acceptedAt := some now })) rideId
      = some { r with driverId := some w, status := .ACCEPTED, acceptedAt := some now } := by
    rw [findRide_updateRide db rideId (fun x =>
      { x with driverId := some w, status := .ACCEPTED, acceptedAt := some now })
      (fun x => rfl), hr]
    rfl
  have hrest := processAccepts_stale rideId now ls _ _ hfound (by simp)
  simp [processAccepts, hstep, hrest, hfound]

/-- Witness for C2: drivers 20 and 21 race for requested ride 1; driver 20
arrives first and wins, driver 21 is rejected, the stored ride keeps driver
20. -/
theorem c2_witness :
    (processAccepts dbC2 1 5 [20, 21]).2
        = .confirmed 1 :: [21].map (fun _ => AcceptReply.rideNoLongerAvailable) ∧
    findRide (processAccepts dbC2 1 5 [20, 21]).1 1
      = some { rideB with driverId := some 20, status := .ACCEPTED, acceptedAt := some 5 } :=
  c2_first_accept_wins dbC2 1 5 20 [21] rideB rfl rfl (by decide) (by decide)

/-- Claim C5: the matching-round expiry callback re-reads the ride and acts
only when it is still REQUESTED, so a requested ride transitions to
NO_DRIVERS exactly once — a second firing changes nothing — and a firing
after the ride left REQUESTED (for example, after an accept) changes
nothing. -/
theorem c5_timeout_rechecks_status (db : Db) (rideId : Nat) (r : Ride)
    (hr : findRide db rideId = some r) :
    (r.status = .REQUESTED →
      (matchingTimeoutFire db rideId).2 = true ∧
      findRide (matchingTimeoutFire db rideId).1 rideId
        = some { r with status := .NO_DRIVERS } ∧
      matchingTimeoutFire (matchingTimeoutFire db rideId).1 rideId
        = ((matchingTimeoutFire db rideId).1, false)) ∧
    (r.status ≠ .REQUESTED → matchingTimeoutFire db rideId = (db, false)) := by
  constructor
  · intro h
    have hfire : matchingTimeoutFire db rideId
        = (updateRide db rideId (fun x => { x with status := .NO_DRIVERS }), true) := by
      simp [matchingTimeoutFire, hr, h]
    have hfound : findRide (updateRide db rideId
        (fun x => { x with status := .NO_DRIVERS })) rideId
        = some { r with status := .NO_DRIVERS } := by
      rw [findRide_updateRide db rideId (fun x => { x with status := .NO_DRIVERS })
        (fun x => rfl), hr]
      rfl
    refine ⟨by rw [hfire], by rw [hfire]; exact hfound, ?_⟩
    rw [hfire]
    simp [matchingTimeoutFire, hfound]
  · intro h
    simp [matchingTimeoutFire, hr, h]

/-- Witness for C5 on the concrete requested ride of the accept fixture. -/
theorem c5_witness :
    (matchingTimeoutFire dbC2 1).2 = true ∧
    findRide (matchingTimeoutFire dbC2 1).1 1 = some { rideB with status := .NO_DRIVERS } ∧
    matchingTimeoutFire (matchingTimeoutFire dbC2 1).1 1
      = ((matchingTimeoutFire dbC2 1).1, false) :=
  (c5_timeout_rechecks_status dbC2 1 rideB rfl).1 rfl

/-- Claim C6: a ride request by a rider who already has an active
(non-terminal) ride is rejected with the active-ride error and leaves the
store unchanged, and consequently a rider with at most one active ride still
has at most one active ride after any request. -/
theorem c6_one_active_ride_per_rider (db : Db) (userId : Nat) (distance : ℚ)
    (st : ServiceType) (promo? : Option PromoCode) (userUsages now newId : Nat) :
    (hasActiveRide db userId = true →
      requestRide db userId distance st promo? userUsages now newId
        = (db, .activeRideExists)) ∧
    (countActive db userId ≤ 1 →
      countActive (requestRide db userId distance st promo? userUsages now newId).1 userId ≤ 1) := by
  constructor
  · intro h
    simp [requestRide, h]
  · intro hle
    by_cases h : hasActiveRide db userId = true
    · simpa [requestRide, h] using hle
    · have hfil : db.rides.filter (fun x => x.userId == userId && isActiveStatus x.status) = [] := by
        rw [List.filter_eq_nil_iff]
        intro x hx hpx
        apply h
        unfold hasActiveRide
        rw [List.any_eq_true]
        exact ⟨x, hx, hpx⟩
      have hgoal : (List.filter (fun x => x.userId == userId && isActiveStatus x.status)
          (db.rides ++ [buildRide userId newId distance st promo? userUsages now])).length ≤ 1 := by
        rw [List.filter_append, hfil, List.nil_append]
        have hlen := List.length_filter_le (fun x => x.userId == userId && isActiveStatus x.status)
          [buildRide userId newId distance st promo? userUsages now]
        simpa using hlen
      simpa [requestRide, h, countActive] using hgoal

/-- Witness for C6 on the concrete store of the accept fixture: rider 10
already has the requested ride, so a new request is rejected and the rider
still holds at most one active ride. -/
theorem c6_witness :
    requestRide dbC2 10 0 .VELOX none 0 0 99 = (dbC2, .activeRideExists) ∧
    countActive (requestRide dbC2 10 0 .VELOX none 0 0 99).1 10 ≤ 1 :=
  ⟨(c6_one_active_ride_per_rider dbC2 10 0 .VELOX none 0 0 99).1 (by decide),
   (c6_one_active_ride_per_rider dbC2 10 0 .VELOX none 0 0 99).2 (by decide)⟩

theorem findDriver_updateDriver (db : Db) (driverId : Nat) (f : Driver → Driver)
    (hf : ∀ d, (f d).id = d.id) :
    findDriver (updateDriver db driverId f) driverId
      = (findDriver db driverId).map f := by
  have hg : ∀ d : Driver, ((if d.id == driverId then f d else d)).id = d.id := by
    intro d
    by_cases h : d.id = driverId <;> simp [h, hf]
  have hmap : findDriver { db with drivers := db.drivers.map (fun d => if d.id == driverId then f d else d) } driverId
      = (findDriver db driverId).map (fun d => if d.id == driverId then f d else d) := by
    unfold findDriver
    exact find?_map_of_key_eq (fun d => d.id) driverId _ hg db.drivers
  rw [updateDriver, hmap]
  cases hfind : findDriver db driverId with
  | none => rfl
  | some d =>
    have hd : d.id = driverId := by
      have := List.find?_some hfind
      simpa using this
    simp [hd]

/-- Claim C8 states the location upsert rejects coordinates outside
latitude [-90,90] / longitude [-180,180] with an error and does not store
them, and that every in-range pair is accepted.  Evaluating the route shows
both halves fail: at latitude 91 the request does error (Redis GEOADD
rejects the pair, the geo index stays empty), but the pair was already
stored in the driver row and the location key; and at latitude 87 — inside
the claimed range — the request errors as well, because the real boundary
is the Redis geo latitude bound of 85.05112878 degrees. -/
theorem c8_counterexample :
    (postLocation dbC8 {} 7 91 0 50).2 = .redisGeoError ∧
    findDriver (postLocation dbC8 {} 7 91 0 50).1.1 7
      = some { driverB with currentLat := 91, currentLng := 0, lastLocationUpdate := some 50 } ∧
    getDriverLocation (postLocation dbC8 {} 7 91 0 50).1.2 7 50 = some ⟨91, 0, 50⟩ ∧
    (postLocation dbC8 {} 7 91 0 50).1.2.geoIndex = [] ∧
    (postLocation dbC8 {} 7 87 0 50).2 = .redisGeoError := by
  norm_num [postLocation, dbC8, driverB, findDriver, updateDriver,
    updateDriverLocation, geoadd, geoInRange, GEO_LAT_MAX, setexLoc,
    getDriverLocation, List.find?]

/-- Claim C8 amended: the route performs no coordinate validation of its
own — the only rejection is Redis GEOADD's bound check on longitude
[-180,180] and latitude [-85.05112878, 85.05112878], so the error boundary
is not the claimed [-90,90]; and whatever the pair, it has already
overwritten the driver's durable position and the Redis location key by the
time that check runs, only the geo index being left unchanged on a
rejection.  Pairs within the Redis bounds are accepted and overwrite the
position everywhere; the remaining error condition is an unknown driver id,
which authentication precludes. -/
theorem c8_partial_store_and_redis_bounds (db : Db) (rs : RedisState)
    (driverId : Nat) (lat lng : ℚ) (now : Nat) (drv : Driver)
    (hdrv : findDriver db driverId = some drv) :
    findDriver (postLocation db rs driverId lat lng now).1.1 driverId
      = some { drv with currentLat := lat, currentLng := lng, lastLocationUpdate := some now } ∧
    getDriverLocation (postLocation db rs driverId lat lng now).1.2 driverId now
      = some ⟨lat, lng, now⟩ ∧
    (postLocation db rs driverId lat lng now).2
      = (if geoInRange lng lat then LocResult.ok else LocResult.redisGeoError) ∧
    (geoInRange lng lat = true →
      (postLocation db rs driverId lat lng now).1.2.geoIndex
        = (driverId, lng, lat) :: rs.geoIndex.filter (fun p => p.1 != driverId)) ∧
    (geoInRange lng lat = false →
      (postLocation db rs driverId lat lng now).1.2.geoIndex = rs.geoIndex) := by
  have hdb : findDriver (updateDriver db driverId (fun d =>
      { d with currentLat := lat, currentLng := lng, lastLocationUpdate := some now })) driverId
      = some { drv with currentLat := lat, currentLng := lng, lastLocationUpdate := some now } := by
    rw [findDriver_updateDriver db driverId (fun d =>
      { d with currentLat := lat, currentLng := lng, lastLocationUpdate := some now })
      (fun d => rfl), hdrv]
    rfl
  by_cases hg : geoInRange lng lat = true
  · have hpost : postLocation db rs driverId lat lng now
        = ((updateDriver db driverId (fun d =>
              { d with currentLat := lat, currentLng := lng, lastLocationUpdate := some now }),
            { locKeys := setexLoc rs.locKeys driverId ⟨lat, lng, now⟩ (now + 300),
              geoIndex := (driverId, lng, lat) :: rs.geoIndex.filter (fun p => p.1 != driverId) }),
           .ok) := by
      simp [postLocation, hdrv, updateDriverLocation, geoadd, hg]
    refine ⟨?_, ?_, ?_, ?_, ?_⟩
    · rw [hpost]
      exact hdb
    · rw [hpost]
      simp [getDriverLocation, setexLoc, List.find?]
    · rw [hpost]
      simp [hg]
    · intro _
      rw [hpost]
    · intro hf
      rw [hg] at hf
      simp at hf
  · have hg2 : geoInRange lng lat = false := by
      simpa using hg
    have hpost : postLocation db rs driverId lat lng now
        = ((updateDriver db driverId (fun d =>
              { d with currentLat := lat, currentLng := lng, lastLocationUpdate := some now }),
            { locKeys := setexLoc rs.locKeys driverId ⟨lat, lng, now⟩ (now + 300),
              geoIndex := rs.geoIndex }),
           .redisGeoError) := by
      simp [postLocation, hdrv, updateDriverLocation, geoadd, hg2]
    refine ⟨?_, ?_, ?_, ?_, ?_⟩
    · rw [hpost]
      exact hdb
    · rw [hpost]
      simp [getDriverLocation, setexLoc, List.find?]
    · rw [hpost]
      simp [hg2]
    · intro hf
      rw [hg2] at hf
      simp at hf
    · intro _
      rw [hpost]

/-- Witness for C8 at latitude 91: the request errors on the Redis geo
bound, yet the pair is already stored in the driver row and the location
key. -/
theorem c8_witness :
    findDriver (postLocation dbC8 {} 7 91 0 50).1.1 7
      = some { driverB with currentLat := 91, currentLng := 0, lastLocationUpdate := some 50 } ∧
    getDriverLocation (postLocation dbC8 {} 7 91 0 50).1.2 7 50 = some ⟨91, 0, 50⟩ ∧
    (postLocation dbC8 {} 7 91 0 50).2
      = (if geoInRange 0 91 then LocResult.ok else LocResult.redisGeoError) := by
  have h := c8_partial_store_and_redis_bounds dbC8 {} 7 91 0 50 driverB rfl
  exact ⟨h.1, h.2.1, h.2.2.1⟩

/-- Claim C10 states that any authenticated identity other than the ride's
rider or its assigned driver receives an access-denied failure with the ride
unchanged.  Evaluating the routes under an admin-type token — which the
authentication middleware admits with no further check — shows the opposite:
principal 99 of type admin is neither rider 10 nor driver 20, yet it reads
the full ride and even cancels it. -/
theorem c10_counterexample :
    authPasses dbC10 ⟨99, .admin⟩ = true ∧
    getRide dbC10 ⟨99, .admin⟩ 1 = .ok rideD ∧
    (cancelRide dbC10 ⟨99, .admin⟩ 1 50).2 = .cancelled 0 ∧
    findRide (cancelRide dbC10 ⟨99, .admin⟩ 1 50).1 1
      = some { rideD with status := .CANCELLED, cancelledAt := some 50, cancelledBy := some .DRIVER } := by
  decide

/-- Claim C10 amended: for principals of type user or driver the ownership
checks behave as claimed — fetching or cancelling a ride is denied with the
store unchanged exactly when the principal is neither the ride's rider nor
its assigned driver; a principal of any other type (an admin token passes
authentication) bypasses both ownership checks. -/
theorem c10_owner_checks_for_user_and_driver (db : Db) (who : Principal)
    (rideId now : Nat) (ride : Ride) (hr : findRide db rideId = some ride)
    (ht : who.type = .user ∨ who.type = .driver) :
    (getRide db who rideId = .accessDenied ∧
     cancelRide db who rideId now = (db, .accessDenied)) ↔ ¬ isParty who ride := by
  rcases ht with h | h
  · by_cases hp : ride.userId = who.id
    · simp [getRide, cancelRide, hr, h, hp, isParty]
    · simp [getRide, cancelRide, hr, h, hp, isParty]
  · by_cases hp : ride.driverId = some who.id
    · simp [getRide, cancelRide, hr, h, hp, isParty]
    · simp [getRide, cancelRide, hr, h, hp, isParty]

/-- Witness for C10: rider 11 is not a party of ride 1 (rider 10, driver
20), so both the fetch and the cancel are denied and the store is
unchanged. -/
theorem c10_witness :
    getRide dbC10 ⟨11, .user⟩ 1 = .accessDenied ∧
    cancelRide dbC10 ⟨11, .user⟩ 1 50 = (dbC10, .accessDenied) :=
  (c10_owner_checks_for_user_and_driver dbC10 ⟨11, .user⟩ 1 50 rideD rfl
    (Or.inl rfl)).mpr (by simp [isParty, rideD])

theorem round2_nonneg (x : ℚ) (hx : 0 ≤ x) : 0 ≤ round2 x := by
  unfold round2
  have h1 : (0:ℤ) ≤ round (x * 100) := by
    rw [round_eq]
    have hx2 : ((0:ℤ) : ℚ) ≤ x * 100 + 1/2 := by push_cast; linarith
    exact Int.le_floor.mpr hx2
  have h2 : (0:ℚ) ≤ ((round (x * 100) : ℤ) : ℚ) := by exact_mod_cast h1
  exact div_nonneg h2 (by norm_num)

theorem pricing_fields_nonneg (st : ServiceType) :
    0 ≤ (PRICING st).baseFare ∧ 0 ≤ (PRICING st).perMile ∧ 0 ≤ (PRICING st).perMinute ∧
    0 ≤ (PRICING st).minFare ∧ 0 ≤ (PRICING st).bookingFee := by
  cases st <;> norm_num [PRICING]

theorem buildRide_fare_nonneg (userId newId : Nat) (distance : ℚ) (st : ServiceType)
    (promo? : Option PromoCode) (userUsages now : Nat)
    (hdist : 0 ≤ distance)
    (hd0 : 0 ≤ promoDiscountOf distance st promo? userUsages now)
    (hd1 : promoDiscountOf distance st promo? userUsages now ≤ preFare distance st) :
    0 ≤ (buildRide userId newId distance st promo? userUsages now).baseFare ∧
    0 ≤ (buildRide userId newId distance st promo? userUsages now).distanceFare ∧
    0 ≤ (buildRide userId newId distance st promo? userUsages now).timeFare ∧
    0 ≤ (buildRide userId newId distance st promo? userUsages now).promoDiscount ∧
    0 ≤ (buildRide userId newId distance st promo? userUsages now).totalFare ∧
    0 ≤ (buildRide userId newId distance st promo? userUsages now).platformFee ∧
    0 ≤ (buildRide userId newId distance st promo? userUsages now).driverEarnings ∧
    (buildRide userId newId distance st promo? userUsages now).tip = 0 := by
  obtain ⟨hb, hm, hpm, hmf, hbf⟩ := pricing_fields_nonneg st
  have hdur : (0:ℚ) ≤ ((⌈distance * (5/2) + 5⌉ : ℤ) : ℚ) := by
    have h : (0:ℤ) ≤ ⌈distance * (5/2) + 5⌉ := Int.ceil_nonneg (by linarith)
    exact_mod_cast h
  have hsub : 0 ≤ preFare distance st - promoDiscountOf distance st promo? userUsages now := by
    linarith
  refine ⟨?_, ?_, ?_, hd0, hsub, ?_, ?_, rfl⟩
  · exact round2_nonneg _ hb
  · exact round2_nonneg _ (mul_nonneg hdist hm)
  · exact round2_nonneg _ (mul_nonneg hdur hpm)
  · show 0 ≤ (preFare distance st - promoDiscountOf distance st promo? userUsages now) * (20 / 100)
    exact mul_nonneg hsub (by norm_num)
  · show 0 ≤ (preFare distance st - promoDiscountOf distance st promo? userUsages now)
        - (preFare distance st - promoDiscountOf distance st promo? userUsages now) * (20 / 100)
    linarith

theorem fareUnchanged_rfl (r : Ride) : fareUnchanged r r :=
  ⟨rfl, rfl, rfl, rfl, rfl, rfl, rfl⟩

theorem findRide_fare_after_update (db : Db) (targetId : Nat) (f : Ride → Ride)
    (hid : ∀ x, (f x).id = x.id) (hfare : ∀ x, fareUnchanged x (f x))
    (rideId : Nat) (r : Ride) (hr : findRide db rideId = some r) :
    ∃ r', findRide (updateRide db targetId f) rideId = some r' ∧ fareUnchanged r r' := by
  have hg : ∀ x : Ride, ((if x.id == targetId then f x else x)).id = x.id := by
    intro x
    by_cases h : x.id = targetId <;> simp [h, hid]
  have hmap := findRide_map db (fun x => if x.id == targetId then f x else x) hg rideId
  refine ⟨if r.id == targetId then f r else r, ?_, ?_⟩
  · have heq : updateRide db targetId f
        = { db with rides := db.rides.map (fun x => if x.id == targetId then f x else x) } := rfl
    rw [heq, hmap, hr]
    rfl
  · by_cases h : r.id = targetId
    · simpa [h] using hfare r
    · simpa [h] using fareUnchanged_rfl r

theorem applyOp_fare_immutable (db : Db) (op : RideOp) (rideId : Nat) (r : Ride)
    (hr : findRide db rideId = some r) :
    ∃ r', findRide (applyOp db op) rideId = some r' ∧ fareUnchanged r r' := by
  cases op with
  | accept d rid n =>
    cases h2 : findRide db rid with
    | none => exact ⟨r, by simpa [applyOp, acceptRide, h2] using hr, fareUnchanged_rfl r⟩
    | some ride =>
      by_cases hs : ride.status = .REQUESTED
      · have h1 : applyOp db (RideOp.accept d rid n)
            = updateRide db rid (fun x =>
                { x with driverId := some d, status := .ACCEPTED, acceptedAt := some n }) := by
          cases hd : findDriver db d <;> simp [applyOp, acceptRide, h2, hs, hd]
        rw [h1]
        exact findRide_fare_after_update db rid (fun x =>
            { x with driverId := some d, status := .ACCEPTED, acceptedAt := some n })
          (fun x => rfl) (fun x => ⟨rfl, rfl, rfl, rfl, rfl, rfl, rfl⟩) rideId r hr
      · exact ⟨r, by simpa [applyOp, acceptRide, h2, hs] using hr, fareUnchanged_rfl r⟩
  | arrived rid n =>
    cases h2 : findRide db rid with
    | none => exact ⟨r, by simpa [applyOp, driverArrived, h2] using hr, fareUnchanged_rfl r⟩
    | some ride =>
      have h1 : applyOp db (RideOp.arrived rid n)
          = updateRide db rid (fun x => { x with status := .ARRIVED, arrivedAt := some n }) := by
        simp [applyOp, driverArrived, h2]
      rw [h1]
      exact findRide_fare_after_update db rid
        (fun x => { x with status := .ARRIVED, arrivedAt := some n })
        (fun x => rfl) (fun x => ⟨rfl, rfl, rfl, rfl, rfl, rfl, rfl⟩) rideId r hr
  | start rid n =>
    cases h2 : findRide db rid with
    | none => exact ⟨r, by simpa [applyOp, startTrip, h2] using hr, fareUnchanged_rfl r⟩
    | some ride =>
      have h1 : applyOp db (RideOp.start rid n)
          = updateRide db rid (fun x => { x with status := .IN_PROGRESS, startedAt := some n }) := by
        simp [applyOp, startTrip, h2]
      rw [h1]
      exact findRide_fare_after_update db rid
        (fun x => { x with status := .IN_PROGRESS, startedAt := some n })
        (fun x => rfl) (fun x => ⟨rfl, rfl, rfl, rfl, rfl, rfl, rfl⟩) rideId r hr
  | complete d rid n =>
    cases h2 : findRide db rid with
    | none => exact ⟨r, by simpa [applyOp, completeTrip, h2] using hr, fareUnchanged_rfl r⟩
    | some ride =>
      have h1 : findRide (applyOp db (RideOp.complete d rid n)) rideId
          = findRide (updateRide db rid (fun x =>
              { x with status := .COMPLETED, completedAt := some n })) rideId := by
        simp only [applyOp, completeTrip, h2]
        simp [findRide, updateDriver, updateRide]
      obtain ⟨r', hfind, hfare⟩ := findRide_fare_after_update db rid (fun x =>
          { x with status := .COMPLETED, completedAt := some n }) (fun x => rfl)
        (fun x => ⟨rfl, rfl, rfl, rfl, rfl, rfl, rfl⟩) rideId r hr
      exact ⟨r', by rw [h1]; exact hfind, hfare⟩
  | cancel w rid n =>
    cases h2 : findRide db rid with
    | none => exact ⟨r, by simpa [applyOp, cancelRide, h2] using hr, fareUnchanged_rfl r⟩
    | some ride =>
      by_cases hc1 : (w.type == PrincipalType.user && ride.userId != w.id) = true
      · exact ⟨r, by simpa [applyOp, cancelRide, h2, hc1] using hr, fareUnchanged_rfl r⟩
      · by_cases hc2 : (w.type == PrincipalType.driver && ride.driverId != some w.id) = true
        · exact ⟨r, by simpa [applyOp, cancelRide, h2, hc1, hc2] using hr, fareUnchanged_rfl r⟩
        · by_cases hc3 : (ride.status == RideStatus.COMPLETED || ride.status == RideStatus.CANCELLED) = true
          · exact ⟨r, by simpa [applyOp, cancelRide, h2, hc1, hc2, hc3] using hr, fareUnchanged_rfl r⟩
          · have h1 : applyOp db (RideOp.cancel w rid n)
                = updateRide db rid (fun x =>
                    { x with status := .CANCELLED, cancelledAt := some n,
                             cancelledBy := some (if w.type == .user then .RIDER else .DRIVER) }) := by
              simp [applyOp, cancelRide, h2, hc1, hc2, hc3]
            rw [h1]
            exact findRide_fare_after_update db rid (fun x =>
                { x with status := .CANCELLED, cancelledAt := some n,
                         cancelledBy := some (if w.type == .user then .RIDER else .DRIVER) })
              (fun x => rfl) (fun x => ⟨rfl, rfl, rfl, rfl, rfl, rfl, rfl⟩) rideId r hr
  | timeout rid =>
    cases h2 : findRide db rid with
    | none => exact ⟨r, by simpa [applyOp, matchingTimeoutFire, h2] using hr, fareUnchanged_rfl r⟩
    | some ride =>
      by_cases hs : (ride.status == RideStatus.REQUESTED) = true
      · have h1 : applyOp db (RideOp.timeout rid)
            = updateRide db rid (fun x => { x with status := .NO_DRIVERS }) := by
          simp [applyOp, matchingTimeoutFire, h2, hs]
        rw [h1]
        exact findRide_fare_after_update db rid
          (fun x => { x with status := .NO_DRIVERS })
          (fun x => rfl) (fun x => ⟨rfl, rfl, rfl, rfl, rfl, rfl, rfl⟩) rideId r hr
      · exact ⟨r, by simpa [applyOp, matchingTimeoutFire, h2, hs] using hr, fareUnchanged_rfl r⟩
  | tip u rid a =>
    cases h2 : findRide db rid with
    | none => exact ⟨r, by simpa [applyOp, addTip, h2] using hr, fareUnchanged_rfl r⟩
    | some ride =>
      by_cases hu : (ride.userId != u) = true
      · exact ⟨r, by simpa [applyOp, addTip, h2, hu] using hr, fareUnchanged_rfl r⟩
      · by_cases hs : ride.status = .COMPLETED
        · have h1 : findRide (applyOp db (RideOp.tip u rid a)) rideId
              = findRide (updateRide db rid (fun x => { x with tip := a })) rideId := by
            by_cases hds : ride.driverId.isSome = true <;>
              · simp only [applyOp, addTip, h2, hu, hs, hds]
                simp [findRide, updateRide]
          obtain ⟨r', hfind, hfare⟩ := findRide_fare_after_update db rid
            (fun x => { x with tip := a }) (fun x => rfl)
            (fun x => ⟨rfl, rfl, rfl, rfl, rfl, rfl, rfl⟩) rideId r hr
          exact ⟨r', by rw [h1]; exact hfind, hfare⟩
        · exact ⟨r, by simpa [applyOp, addTip, h2, hu, hs] using hr, fareUnchanged_rfl r⟩

theorem preFare_nonneg (distance : ℚ) (st : ServiceType) (hdist : 0 ≤ distance) :
    0 ≤ preFare distance st := by
  obtain ⟨hb, hm, hpm, hmf, hbf⟩ := pricing_fields_nonneg st
  have hdur : (0:ℚ) ≤ ((⌈distance * (5/2) + 5⌉ : ℤ) : ℚ) := by
    have h : (0:ℤ) ≤ ⌈distance * (5/2) + 5⌉ := Int.ceil_nonneg (by linarith)
    exact_mod_cast h
  show 0 ≤ round2 (if ((PRICING st).baseFare + distance * (PRICING st).perMile
        + ((⌈distance * (5/2) + 5⌉ : ℤ) : ℚ) * (PRICING st).perMinute) * 1
        + (PRICING st).bookingFee < (PRICING st).minFare
      then (PRICING st).minFare
      else ((PRICING st).baseFare + distance * (PRICING st).perMile
        + ((⌈distance * (5/2) + 5⌉ : ℤ) : ℚ) * (PRICING st).perMinute) * 1
        + (PRICING st).bookingFee)
  apply round2_nonneg
  split
  · exact hmf
  · have h1 : 0 ≤ distance * (PRICING st).perMile := mul_nonneg hdist hm
    have h2 : 0 ≤ ((⌈distance * (5/2) + 5⌉ : ℤ) : ℚ) * (PRICING st).perMinute :=
      mul_nonneg hdur hpm
    nlinarith

/-- Claim C7 amended: every fare field stored at ride creation is
non-negative provided the promo discount applied then lies between zero and
the pre-discount fare — guaranteed for FIXED promos, but not enforced by the
code for a misconfigured percentage promo — and, after creation, no
lifecycle operation changes any fare field of any stored ride: only the tip
may be modified. -/
theorem c7_fare_nonneg_and_immutable :
    (∀ (userId newId : Nat) (distance : ℚ) (st : ServiceType)
        (promo? : Option PromoCode) (userUsages now : Nat),
      0 ≤ distance →
      0 ≤ promoDiscountOf distance st promo? userUsages now →
      promoDiscountOf distance st promo? userUsages now ≤ preFare distance st →
      0 ≤ (buildRide userId newId distance st promo? userUsages now).baseFare ∧
      0 ≤ (buildRide userId newId distance st promo? userUsages now).distanceFare ∧
      0 ≤ (buildRide userId newId distance st promo? userUsages now).timeFare ∧
      0 ≤ (buildRide userId newId distance st promo? userUsages now).promoDiscount ∧
      0 ≤ (buildRide userId newId distance st promo? userUsages now).totalFare ∧
      0 ≤ (buildRide userId newId distance st promo? userUsages now).platformFee ∧
      0 ≤ (buildRide userId newId distance st promo? userUsages now).driverEarnings ∧
      (buildRide userId newId distance st promo? userUsages now).tip = 0) ∧
    (∀ (db : Db) (op : RideOp) (rideId : Nat) (r : Ride),
      findRide db rideId = some r →
      ∃ r', findRide (applyOp db op) rideId = some r' ∧ fareUnchanged r r') :=
  ⟨buildRide_fare_nonneg, applyOp_fare_immutable⟩

/-- Witness for C7 amended: a two-mile promo-free ride has non-negative
total fare and discount, and the arrived event leaves every fare field of
the in-progress fixture ride unchanged. -/
theorem c7_witness :
    (0 ≤ (buildRide 10 1 2 .VELOX none 0 0).totalFare ∧
     0 ≤ (buildRide 10 1 2 .VELOX none 0 0).promoDiscount) ∧
    (∃ r', findRide (applyOp dbC1 (RideOp.arrived 1 60)) 1 = some r' ∧
      fareUnchanged rideA r') := by
  have hA := c7_fare_nonneg_and_immutable.1 10 1 2 .VELOX none 0 0 (by norm_num)
    (by simp [promoDiscountOf, validatePromoCode])
    (by simpa [promoDiscountOf, validatePromoCode] using preFare_nonneg 2 .VELOX (by norm_num))
  have hB := c7_fare_nonneg_and_immutable.2 dbC1 (RideOp.arrived 1 60) 1 rideA rfl
  exact ⟨⟨hA.2.2.2.2.1, hA.2.2.2.1⟩, hB⟩

/-- Claim C7 as stated is false on the code: with an active 200 percent
promo code carrying no discount cap, the ride created for a zero-distance
request stores a total fare of minus seven dollars — the promo discount is
not clamped to the fare for percentage promos. -/
theorem c7_counterexample :
    (requestRide {} 10 0 .VELOX (some promoX) 0 0 1).1.rides.map (fun r => r.totalFare)
      = [-7] ∧ ¬ (0:ℚ) ≤ (-7:ℚ) := by
  constructor
  · norm_num [requestRide, hasActiveRide, buildRide, calculateFare, PRICING, round2,
      validatePromoCode, promoX]
  · norm_num

end Velox
